import Mathlib

/-!
Shallow embedding of the ASGI tracing middleware in
`src/ext/opentelemetry-ext-asgi/src/opentelemetry/ext/asgi/__init__.py`
(functions `get_header_from_scope`, `get_default_span_name`,
`collect_request_attributes`, and `OpenTelemetryMiddleware.__call__` with
its inner `wrapped_receive` / `wrapped_send`), together with theorems
settling the specification's claims about them.

Python's dynamic behaviours that the claims depend on are made explicit:
fallible operations return `Except PyErr`, `dict.get` becomes `Option`,
bytes become `List Nat`, and `bytes.decode('utf8')` becomes a strict
UTF-8 decoder returning `Option String`.
-/

/-- The Python exception classes that the embedded code can raise or
catch, plus an `other` constructor standing for arbitrary application /
transport exceptions (including cancellation) flowing through the
middleware. -/
inductive PyErr : Type
  | typeError
  | valueError
  | keyError
  | unicodeDecodeError
  | other (msg : String)
  deriving DecidableEq, Repr

/-- A span-attribute value: the embedded code only ever stores strings,
integers, or Python `None` in the attribute mapping. -/
inductive AttrVal : Type
  | str (s : String)
  | int (n : Int)
  | none
  deriving DecidableEq, Repr

/-- `True` for a UTF-8 continuation byte (`0x80 ≤ b < 0xC0`). -/
def contByte (b : Nat) : Bool :=
  decide (0x80 ≤ b) && decide (b < 0xC0)

/-- Strict UTF-8 decoding of a byte list into characters, modelling
Python's `bytes.decode('utf8')`: rejects stray continuation bytes,
overlong encodings, surrogate code points and code points above
`0x10FFFF`, returning `none` exactly when CPython would raise
`UnicodeDecodeError`. -/
def utf8Decode : List Nat → Option (List Char)
  | [] => some []
  | b :: rest =>
    if b < 0x80 then
      (utf8Decode rest).map (fun cs => Char.ofNat b :: cs)
    else if b < 0xC2 then
      none
    else if b < 0xE0 then
      match rest with
      | b1 :: rest1 =>
        if contByte b1 then
          (utf8Decode rest1).map
            (fun cs => Char.ofNat ((b - 0xC0) * 64 + (b1 - 0x80)) :: cs)
        else none
      | [] => none
    else if b < 0xF0 then
      match rest with
      | b1 :: b2 :: rest2 =>
        if contByte b1 && contByte b2 then
          let cp := (b - 0xE0) * 4096 + (b1 - 0x80) * 64 + (b2 - 0x80)
          if cp < 0x800 ∨ (0xD800 ≤ cp ∧ cp < 0xE000) then none
          else (utf8Decode rest2).map (fun cs => Char.ofNat cp :: cs)
        else none
      | _ => none
    else if b < 0xF5 then
      match rest with
      | b1 :: b2 :: b3 :: rest3 =>
        if contByte b1 && contByte b2 && contByte b3 then
          let cp := (b - 0xF0) * 262144 + (b1 - 0x80) * 4096
                      + (b2 - 0x80) * 64 + (b3 - 0x80)
          if cp < 0x10000 ∨ 0x10FFFF < cp then none
          else (utf8Decode rest3).map (fun cs => Char.ofNat cp :: cs)
        else none
      | _ => none
    else none

/-- `bytes.decode('utf8')` producing a `String`. -/
def decodeUtf8 (bs : List Nat) : Option String :=
  (utf8Decode bs).map List.asString

/-- The ASGI connection scope, embedded as a structure of the fields the
middleware reads.  `Option.none` models an absent key (`dict.get`
returning Python `None`).  `server` and `client` are the ASGI
`(host, port)` two-element pairs; `headers` is the ordered list of
`(name, value)` byte pairs. -/
structure Scope : Type where
  type : Option String := Option.none
  method : Option String := Option.none
  server : Option (String × Int) := Option.none
  client : Option (String × Int) := Option.none
  scheme : Option String := Option.none
  path : Option String := Option.none
  http_version : Option String := Option.none
  headers : Option (List (List Nat × List Nat)) := Option.none
  deriving DecidableEq, Repr

/-- The list-comprehension body of `get_header_from_scope`: walk the
header pairs in order; decode each name (raising on failure), and for a
matching name decode the value (raising on failure) and collect it.
Values of non-matching pairs are never decoded, as in the Python
comprehension. -/
def headerScan (header_name : String) :
    List (List Nat × List Nat) → Except PyErr (List String)
  | [] => Except.ok []
  | (key, value) :: rest =>
    match decodeUtf8 key with
    | Option.none => Except.error PyErr.unicodeDecodeError
    | Option.some k =>
      if k = header_name then
        match decodeUtf8 value with
        | Option.none => Except.error PyErr.unicodeDecodeError
        | Option.some v => (headerScan header_name rest).map (fun vs => v :: vs)
      else
        headerScan header_name rest

/-- `get_header_from_scope(scope, header_name)`: reads
`scope.get('headers')` and runs the comprehension over it.  When the
scope has no header collection, `scope.get('headers')` is Python `None`
and iterating it raises `TypeError`. -/
def get_header_from_scope (scope : Scope) (header_name : String) :
    Except PyErr (List String) :=
  match scope.headers with
  | Option.none => Except.error PyErr.typeError
  | Option.some headers => headerScan header_name headers

/-- `get_default_span_name(scope)`: `scope.get("path", "/")`. -/
def get_default_span_name (scope : Scope) : String :=
  scope.path.getD "/"

/-- Python `str()` of the components of the ASGI server pair, as used by
`":".join(map(str, scope.get("server")))`. -/
def serverNameOf (server : String × Int) : String :=
  server.1 ++ ":" ++ toString server.2

/-- `collect_request_attributes(scope)`: builds the span-creation
attribute mapping (an insertion-ordered association list, like a Python
dict).  When `scope.get("server")` is Python `None`, both
`":".join(map(str, None))` and `None[0]` raise `TypeError`. -/
def collect_request_attributes (scope : Scope) :
    Except PyErr (List (String × AttrVal)) :=
  match scope.server with
  | Option.none => Except.error PyErr.typeError
  | Option.some server =>
    let optStr : Option String → AttrVal := fun o =>
      match o with
      | Option.none => AttrVal.none
      | Option.some s => AttrVal.str s
    let result : List (String × AttrVal) :=
      [("component", optStr scope.type),
       ("http.method", optStr scope.method),
       ("http.server_name", AttrVal.str (serverNameOf server)),
       ("http.scheme", optStr scope.scheme),
       ("http.host", AttrVal.str server.1),
       ("http.port", AttrVal.int server.2)]
    let result :=
      match scope.path with
      | Option.some target => result ++ [("http.target", AttrVal.str target)]
      | Option.none => result
    let result :=
      match scope.http_version with
      | Option.some flavor =>
        if flavor = "" then result else result ++ [("http.flavor", AttrVal.str flavor)]
      | Option.none => result
    Except.ok result

/-- A Python value that can appear as the raw `status` field of an
`http.response.start` message. -/
inductive PyVal : Type
  | int (n : Int)
  | str (s : String)
  | none
  deriving DecidableEq, Repr

/-- The numeric value of an all-digit character list, `Option.none` when the
list is empty or holds a non-digit. -/
def digitsVal (cs : List Char) : Option Nat :=
  if cs = [] then Option.none
  else if cs.all Char.isDigit then
    Option.some (cs.foldl (fun a c => a * 10 + (c.toNat - 48)) 0)
  else Option.none

/-- Python `int(s)` on a string: surrounding spaces are stripped, an
optional sign precedes a non-empty digit run; anything else raises
`ValueError`. -/
def pyStrToInt (s : String) : Option Int :=
  let cs := ((s.data.dropWhile (fun c => c = ' ')).reverse.dropWhile
    (fun c => c = ' ')).reverse
  match cs with
  | '-' :: rest => (digitsVal rest).map (fun n => -(n : Int))
  | '+' :: rest => (digitsVal rest).map (fun n => (n : Int))
  | rest => (digitsVal rest).map (fun n => (n : Int))

/-- Python `int(x)` on a value: identity on integers, string parsing with
`ValueError` on failure, and `TypeError` on `None` (which the embedded
code's `except ValueError` does not catch). -/
def pyInt : PyVal → Except PyErr Int
  | PyVal.int n => Except.ok n
  | PyVal.str s =>
    match pyStrToInt s with
    | Option.some n => Except.ok n
    | Option.none => Except.error PyErr.valueError
  | PyVal.none => Except.error PyErr.typeError

/-- Python `repr(x)` for the values above, as used in the diagnostic
message `"Non-integer HTTP status: " + repr(status_code)`. -/
def pyRepr : PyVal → String
  | PyVal.int n => toString n
  | PyVal.str s => "'" ++ s ++ "'"
  | PyVal.none => "None"

/-- Canonical status outcome of a span. -/
inductive Outcome : Type
  | ok
  | clientError
  | serverError
  | unknown
  deriving DecidableEq, Repr

/-- Modelled from the spec: `http_status_to_canonical_code` is imported
from `opentelemetry.ext.wsgi`, which is not under `src/`.  The spec
(§4.3) gives its contract: 1xx–2xx → ok, 3xx → redirect/ok, 4xx → client
error, 5xx → server error; out-of-range codes are unknown. -/
def http_status_to_canonical_code (code : Int) : Outcome :=
  if code < 100 then Outcome.unknown
  else if code < 400 then Outcome.ok
  else if code < 500 then Outcome.clientError
  else if code < 600 then Outcome.serverError
  else Outcome.unknown

/-- `Status(canonical_code, description=None)` from
`opentelemetry.trace.status`. -/
structure Status : Type where
  canonical : Outcome
  description : Option String := Option.none
  deriving DecidableEq, Repr

/-- The Status Classifier: the `status_code = int(status_code)` block of
`wrapped_send` (its `try/except ValueError/else`).  Returns the
attribute entries and the status that the block sets on the send span;
an exception other than `ValueError` (e.g. `TypeError` from `int(None)`)
is not caught and propagates. -/
def recordStatus (raw : PyVal) : Except PyErr (List (String × AttrVal) × Status) :=
  match pyInt raw with
  | Except.error PyErr.valueError =>
    Except.ok ([],
      { canonical := Outcome.unknown,
        description := Option.some ("Non-integer HTTP status: " ++ pyRepr raw) })
  | Except.error e => Except.error e
  | Except.ok n =>
    Except.ok ([("http.status_code", AttrVal.int n)],
      { canonical := http_status_to_canonical_code n })

/-- One bookkeeping event applied to the tracer: span start (with name,
parent span id, creation attributes), span end, attribute set, status
set, name update.  The root span's parent field is `Option.none`: the
propagated context extracted by `propagators.extract` (not under `src/`;
per spec §6 an opaque optional parent) is not a span of this trace
segment. -/
inductive Ev : Type
  | start (id : Nat) (name : String) (parent : Option Nat)
      (attrs : List (String × AttrVal))
  | stop (id : Nat)
  | setAttr (id : Nat) (key : String) (val : AttrVal)
  | setStatus (id : Nat) (st : Status)
  | updateName (id : Nat) (name : String)
  deriving DecidableEq, Repr

/-- The span id an event belongs to. -/
def Ev.spanId : Ev → Nat
  | Ev.start id _ _ _ => id
  | Ev.stop id => id
  | Ev.setAttr id _ _ => id
  | Ev.setStatus id _ => id
  | Ev.updateName id _ => id

/-- `true` for a root-span start event (parent `Option.none`). -/
def Ev.isRootStart : Ev → Bool
  | Ev.start _ _ Option.none _ => true
  | _ => false

/-- `true` for a start event of span `id`. -/
def Ev.isStartOf (id : Nat) : Ev → Bool
  | Ev.start i _ _ _ => i = id
  | _ => false

/-- `true` for an end event of span `id`. -/
def Ev.isStopOf (id : Nat) : Ev → Bool
  | Ev.stop i => i = id
  | _ => false

/-- Tracer bookkeeping state: the next fresh span id and the ordered log
of events. -/
structure TraceState : Type where
  nextId : Nat
  events : List Ev
  deriving DecidableEq, Repr

/-- Append events to the log. -/
def TraceState.push (st : TraceState) (evs : List Ev) : TraceState :=
  { st with events := st.events ++ evs }

/-- `tracer.start_span(name, parent, kind, attributes)`: allocates a
fresh span id and logs the start event. -/
def TraceState.startSpan (st : TraceState) (name : String)
    (parent : Option Nat) (attrs : List (String × AttrVal)) :
    Nat × TraceState :=
  (st.nextId,
   { nextId := st.nextId + 1,
     events := st.events ++ [Ev.start st.nextId name parent attrs] })

/-- Number of root-span start events in a log. -/
def rootStartCount (evs : List Ev) : Nat :=
  evs.countP Ev.isRootStart

/-- Number of start events of span `id` in a log. -/
def startCount (id : Nat) (evs : List Ev) : Nat :=
  evs.countP (Ev.isStartOf id)

/-- Number of end events of span `id` in a log. -/
def stopCount (id : Nat) (evs : List Ev) : Nat :=
  evs.countP (Ev.isStopOf id)

/-- An ASGI message, embedded with the fields the middleware reads;
`Option.none` models an absent key, whose subscript access
(`payload['type']`, `payload['status']`, `payload['text']`) raises
`KeyError`. -/
structure Payload : Type where
  type : Option String := Option.none
  status : Option PyVal := Option.none
  text : Option String := Option.none
  deriving DecidableEq, Repr

/-- `wrapped_receive` (lines 92–109): start a child span named
`span_name + " (unknown-receive)"` parented to the root span, await the
underlying receive (`res` is what that await produces — a payload, an
exception, or a cancellation), and on success inspect the payload,
annotate, rename and end the span.  When the await raises, or a
subscript raises `KeyError`, no code ends the child span (there is no
`try/finally`); `tracer.use_span` only manages the current-span slot
(spec §6) and ends nothing. -/
def wrapped_receive (span_name : String) (root : Nat)
    (res : Except PyErr Payload) (st : TraceState) :
    Except PyErr Payload × TraceState :=
  let (rid, st) := st.startSpan (span_name ++ " (unknown-receive)") (Option.some root) []
  match res with
  | Except.error e => (Except.error e, st)
  | Except.ok payload =>
    match payload.type with
    | Option.none => (Except.error PyErr.keyError, st)
    | Option.some ty =>
      let (bres, st) :=
        if ty = "websocket.receive" then
          let st := st.push
            [Ev.setAttr rid "http.status_code" (AttrVal.int 200),
             Ev.setStatus rid { canonical := http_status_to_canonical_code 200 }]
          match payload.text with
          | Option.none => (Except.error PyErr.keyError, st)
          | Option.some text =>
            (Except.ok (), st.push [Ev.setAttr rid "http.status_text" (AttrVal.str text)])
        else (Except.ok (), st)
      match bres with
      | Except.error e => (Except.error e, st)
      | Except.ok _ =>
        let st := st.push
          [Ev.updateName rid (span_name ++ " (" ++ ty ++ ")"),
           Ev.setAttr rid "type" (AttrVal.str ty),
           Ev.stop rid]
        (Except.ok payload, st)

/-- `wrapped_send` (lines 111–141): start a child span named
`span_name + " (unknown-send)"` parented to the root span, run the
message-type-specific status recording (the Status Classifier for
`http.response.start`, the fixed 200 recording for `websocket.send`),
rename and tag the span, await the underlying send (`sendRes` is what
that await produces), and end the span only after the send returns.
When the status block, a subscript, or the awaited send raises, no code
ends the child span. -/
def wrapped_send (span_name : String) (root : Nat)
    (payload : Payload) (sendRes : Except PyErr Unit) (st : TraceState) :
    Except PyErr Unit × TraceState :=
  let (sid, st) := st.startSpan (span_name ++ " (unknown-send)") (Option.some root) []
  match payload.type with
  | Option.none => (Except.error PyErr.keyError, st)
  | Option.some ty =>
    let (bres, st) :=
      if ty = "http.response.start" then
        match payload.status with
        | Option.none => (Except.error PyErr.keyError, st)
        | Option.some raw =>
          match recordStatus raw with
          | Except.error e => (Except.error e, st)
          | Except.ok (attrs, status) =>
            (Except.ok (),
             st.push (attrs.map (fun kv => Ev.setAttr sid kv.1 kv.2)
               ++ [Ev.setStatus sid status]))
      else if ty = "websocket.send" then
        let st := st.push
          [Ev.setAttr sid "http.status_code" (AttrVal.int 200),
           Ev.setStatus sid { canonical := http_status_to_canonical_code 200 }]
        match payload.text with
        | Option.none => (Except.error PyErr.keyError, st)
        | Option.some text =>
          (Except.ok (), st.push [Ev.setAttr sid "http.status_text" (AttrVal.str text)])
      else (Except.ok (), st)
    match bres with
    | Except.error e => (Except.error e, st)
    | Except.ok _ =>
      let st := st.push
        [Ev.updateName sid (span_name ++ " (" ++ ty ++ ")"),
         Ev.setAttr sid "type" (AttrVal.str ty)]
      match sendRes with
      | Except.error e => (Except.error e, st)
      | Except.ok _ => (Except.ok (), st.push [Ev.stop sid])

deriving instance DecidableEq for Except

/-- One interaction of the wrapped application with the intercepted
primitives: an invocation of the wrapped receive (with the result the
underlying receive produces) or of the wrapped send (with a payload and
the result the underlying send produces). -/
inductive AppStep : Type
  | recv (res : Except PyErr Payload)
  | send (payload : Payload) (res : Except PyErr Unit)
  deriving DecidableEq, Repr

/-- The behaviour of one application invocation: the primitive calls it
makes, in order, and its final outcome (normal return or an exception of
its own) reached when all its primitive calls succeed.  A failing
primitive call aborts the run with that failure (the application does
not catch it). -/
structure AppRun : Type where
  steps : List AppStep := []
  outcome : Except PyErr Unit := Except.ok ()
  deriving DecidableEq, Repr

/-- An application object, in one of the two ASGI shapes: `single` is a
coroutine function expecting one call `app(scope, receive, send)`;
`double` expects `app(scope)` to return a callable that is then called
with the primitives. -/
inductive Application : Type
  | single (run : AppRun)
  | double (run : AppRun)
  deriving DecidableEq, Repr

/-- The call shape of line 142,
`self.asgi(scope)(wrapped_receive, wrapped_send)`: `self.asgi` is called
with the single argument `scope`, and its result is called with the two
wrapped primitives.  A double-shape application returns its inner
callable; a single-shape application, called with one argument instead
of three, raises `TypeError`. -/
def invoke_asgi (app : Application) (_scope : Scope) : Except PyErr AppRun :=
  match app with
  | Application.double run => Except.ok run
  | Application.single _ => Except.error PyErr.typeError

/-- Run the application's primitive calls through the wrappers, in
order; the first failing wrapper invocation aborts the run with its
exception. -/
def runSteps (span_name : String) (root : Nat) :
    List AppStep → TraceState → Except PyErr Unit × TraceState
  | [], st => (Except.ok (), st)
  | AppStep.recv res :: rest, st =>
    match wrapped_receive span_name root res st with
    | (Except.error e, st1) => (Except.error e, st1)
    | (Except.ok _, st1) => runSteps span_name root rest st1
  | AppStep.send payload res :: rest, st =>
    match wrapped_send span_name root payload res st with
    | (Except.error e, st1) => (Except.error e, st1)
    | (Except.ok _, st1) => runSteps span_name root rest st1

/-- The body of the `try:` block up to the application's return
(line 142): invoke the application in the line-142 call shape and run
its primitive calls through the wrappers; the result is the
application's outcome, or the first exception raised by the invocation,
a wrapper, or the application itself. -/
def app_body (app : Application) (scope : Scope) (span_name : String)
    (root : Nat) (st : TraceState) : Except PyErr Unit × TraceState :=
  match invoke_asgi app scope with
  | Except.error e => (Except.error e, st)
  | Except.ok run =>
    match runSteps span_name root run.steps st with
    | (Except.error e, st1) => (Except.error e, st1)
    | (Except.ok _, st1) => (run.outcome, st1)

/-- `OpenTelemetryMiddleware.__call__` (lines 78–147): extract the
propagated context (opaque, spec §6), compute the span name, start the
root span with the collected request attributes (an exception from
`collect_request_attributes` — absent `server` — propagates before any
span exists), then run the `try:` body; on normal return end the root
span (line 143), and on any exception end the root span (line 146) and
re-raise the same exception. -/
def middleware_call (app : Application) (scope : Scope) (st : TraceState) :
    Except PyErr Unit × TraceState :=
  match collect_request_attributes scope with
  | Except.error e => (Except.error e, st)
  | Except.ok attrs =>
    let span_name := get_default_span_name scope
    let (root, st1) := st.startSpan span_name Option.none attrs
    match app_body app scope span_name root st1 with
    | (Except.ok _, st2) => (Except.ok (), st2.push [Ev.stop root])
    | (Except.error e, st2) => (Except.error e, st2.push [Ev.stop root])

/-- The name-decoded view of a header collection: `Option.some` of the
pairs with their names decoded and their values kept raw, when every
name decodes.  Values are not touched. -/
def decodeNames : List (List Nat × List Nat) → Option (List (String × List Nat))
  | [] => Option.some []
  | (k, v) :: rest =>
    match decodeUtf8 k, decodeNames rest with
    | Option.some ks, Option.some ds => Option.some ((ks, v) :: ds)
    | _, _ => Option.none

/-- The spec's description of the Header Accessor, stated on the
name-decoded view: the decoded values of exactly the pairs whose name
matches, preserving the original order of occurrence — defined exactly
when those matching values decode.  Values of non-matching pairs are
never consulted, so they may be arbitrary (even undecodable) bytes. -/
def specMatchingValues (name : String) :
    List (String × List Nat) → Option (List String)
  | [] => Option.some []
  | (k, v) :: rest =>
    if k = name then
      match decodeUtf8 v, specMatchingValues name rest with
      | Option.some v1, Option.some vs => Option.some (v1 :: vs)
      | _, _ => Option.none
    else specMatchingValues name rest

/-- Canonical form of `collect_request_attributes` on a scope whose
`server` pair is present: the six always-present entries followed by the
conditional `http.target` and `http.flavor` entries. -/
def collectAttrsNF (scope : Scope) (server : String × Int) :
    List (String × AttrVal) :=
  [("component", match scope.type with
      | Option.none => AttrVal.none
      | Option.some s => AttrVal.str s),
   ("http.method", match scope.method with
      | Option.none => AttrVal.none
      | Option.some s => AttrVal.str s),
   ("http.server_name", AttrVal.str (serverNameOf server)),
   ("http.scheme", match scope.scheme with
      | Option.none => AttrVal.none
      | Option.some s => AttrVal.str s),
   ("http.host", AttrVal.str server.1),
   ("http.port", AttrVal.int server.2)]
  ++ (match scope.path with
      | Option.some target => [("http.target", AttrVal.str target)]
      | Option.none => [])
  ++ (match scope.http_version with
      | Option.some flavor =>
        if flavor = "" then [] else [("http.flavor", AttrVal.str flavor)]
      | Option.none => [])

/-- Example scope: server pair only. -/
def scopeServerOnly : Scope :=
  { server := Option.some ("example.com", 80) }

/-- Example scope: server pair plus a client (peer) pair. -/
def scopeWithClient : Scope :=
  { server := Option.some ("example.com", 80),
    client := Option.some ("10.0.0.1", 4242) }

/-- Example scope: server pair, non-empty path and HTTP version. -/
def scopeWithPathVersion : Scope :=
  { server := Option.some ("h", 80), path := Option.some "/x",
    http_version := Option.some "1.1" }

/-- Example scope: server pair and an empty-string path. -/
def scopeEmptyPath : Scope :=
  { server := Option.some ("h", 80), path := Option.some "" }

/-- The attribute mapping `collect_request_attributes` produces for
`scopeServerOnly`. -/
def attrsServerOnly : List (String × AttrVal) :=
  [("component", AttrVal.none), ("http.method", AttrVal.none),
   ("http.server_name", AttrVal.str "example.com:80"),
   ("http.scheme", AttrVal.none),
   ("http.host", AttrVal.str "example.com"),
   ("http.port", AttrVal.int 80)]

/-- Example application behaviour: one `http.request` receive followed
by an `http.response.start` send with integer status 200, then a normal
return. -/
def exampleRun : AppRun :=
  { steps :=
      [AppStep.recv (Except.ok { type := Option.some "http.request" }),
       AppStep.send { type := Option.some "http.response.start",
                      status := Option.some (PyVal.int 200) } (Except.ok ())] }

lemma headerScan_names (name : String) (hs : List (List Nat × List Nat)) :
    ∀ (nhs : List (String × List Nat)) (vs : List String),
      decodeNames hs = Option.some nhs →
      specMatchingValues name nhs = Option.some vs →
      headerScan name hs = Except.ok vs := by
  induction hs with
  | nil =>
    intro nhs vs h1 h2
    simp only [decodeNames, Option.some.injEq] at h1
    subst h1
    simp only [specMatchingValues, Option.some.injEq] at h2
    subst h2
    simp [headerScan]
  | cons pair rest ih =>
    obtain ⟨k, v⟩ := pair
    intro nhs vs h1 h2
    simp only [decodeNames] at h1
    cases hk : decodeUtf8 k with
    | none => rw [hk] at h1; simp at h1
    | some ks =>
      cases hd : decodeNames rest with
      | none => rw [hk, hd] at h1; simp at h1
      | some ds =>
        rw [hk, hd] at h1
        simp only [Option.some.injEq] at h1
        subst h1
        simp only [headerScan, hk]
        simp only [specMatchingValues] at h2
        by_cases hname : ks = name
        · rw [if_pos hname]
          rw [if_pos hname] at h2
          cases hv : decodeUtf8 v with
          | none => rw [hv] at h2; simp at h2
          | some v1 =>
            rw [hv] at h2
            cases hm : specMatchingValues name ds with
            | none => rw [hm] at h2; simp at h2
            | some vs1 =>
              rw [hm] at h2
              simp only [Option.some.injEq] at h2
              subst h2
              simp [ih ds vs1 hd hm, Except.map]
        · rw [if_neg hname]
          rw [if_neg hname] at h2
          exact ih ds vs hd h2

lemma headerScan_bad (name : String) (hs : List (List Nat × List Nat))
    (hbad : (∃ p ∈ hs, decodeUtf8 p.1 = Option.none) ∨
      (∃ p ∈ hs, decodeUtf8 p.1 = Option.some name ∧
        decodeUtf8 p.2 = Option.none)) :
    headerScan name hs = Except.error PyErr.unicodeDecodeError := by
  induction hs with
  | nil =>
    rcases hbad with ⟨p, hp, _⟩ | ⟨p, hp, _⟩ <;> simp at hp
  | cons pair rest ih =>
    obtain ⟨k, v⟩ := pair
    simp only [headerScan]
    cases hk : decodeUtf8 k with
    | none => rfl
    | some ks =>
      dsimp only
      by_cases hname : ks = name
      · rw [if_pos hname]
        cases hv : decodeUtf8 v with
        | none => rfl
        | some v1 =>
          have hrest : (∃ p ∈ rest, decodeUtf8 p.1 = Option.none) ∨
              (∃ p ∈ rest, decodeUtf8 p.1 = Option.some name ∧
                decodeUtf8 p.2 = Option.none) := by
            rcases hbad with ⟨p, hp, hpd⟩ | ⟨p, hp, hpd1, hpd2⟩
            · rcases List.mem_cons.mp hp with h1 | h2
              · subst h1; simp only at hpd; rw [hpd] at hk; cases hk
              · exact Or.inl ⟨p, h2, hpd⟩
            · rcases List.mem_cons.mp hp with h1 | h2
              · subst h1; simp only at hpd2; rw [hpd2] at hv; cases hv
              · exact Or.inr ⟨p, h2, hpd1, hpd2⟩
          simp [ih hrest, Except.map]
      · rw [if_neg hname]
        have hrest : (∃ p ∈ rest, decodeUtf8 p.1 = Option.none) ∨
            (∃ p ∈ rest, decodeUtf8 p.1 = Option.some name ∧
              decodeUtf8 p.2 = Option.none) := by
          rcases hbad with ⟨p, hp, hpd⟩ | ⟨p, hp, hpd1, hpd2⟩
          · rcases List.mem_cons.mp hp with h1 | h2
            · subst h1; simp only at hpd; rw [hpd] at hk; cases hk
            · exact Or.inl ⟨p, h2, hpd⟩
          · rcases List.mem_cons.mp hp with h1 | h2
            · subst h1
              simp only at hpd1
              exact absurd (Option.some.inj (hpd1.symm.trans hk)).symm hname
            · exact Or.inr ⟨p, h2, hpd1, hpd2⟩
        exact ih hrest

/-- C3 (corrected): when the scope has a header collection whose names
all decode and whose matching values decode (values of non-matching
pairs are never decoded, so they may be arbitrary bytes),
`get_header_from_scope` returns exactly the decoded values of the
matching pairs, in original order (so the empty list when nothing
matches, never a null value); but when the scope contains no header
collection it raises a `TypeError` instead of returning an empty
sequence. -/
theorem C3_header_accessor (scope : Scope) (name : String) :
    (scope.headers = Option.none →
      get_header_from_scope scope name = Except.error PyErr.typeError) ∧
    (∀ (hs : List (List Nat × List Nat)) (nhs : List (String × List Nat))
        (vs : List String),
      scope.headers = Option.some hs → decodeNames hs = Option.some nhs →
      specMatchingValues name nhs = Option.some vs →
      get_header_from_scope scope name = Except.ok vs) := by
  constructor
  · intro h; simp [get_header_from_scope, h]
  · intro hs nhs vs hh h1 h2
    simp [get_header_from_scope, hh, headerScan_names name hs nhs vs h1 h2]

/-- C3, witness for the corrected theorem at a concrete scope: the two
`host` values come back decoded, in order, even though a non-matching
pair carries the undecodable value byte `0xFF`. -/
theorem C3_header_accessor_witness :
    get_header_from_scope
      { headers := Option.some
          [([104, 111, 115, 116], [101, 120]),
           ([120], [255]),
           ([104, 111, 115, 116], [98])] } "host"
      = Except.ok ["ex", "b"] :=
  (C3_header_accessor _ "host").2 _
    [("host", [101, 120]), ("x", [255]), ("host", [98])] ["ex", "b"]
    rfl (by decide) (by decide)

/-- C3, counterexample to the claim as stated: a scope with no header
collection makes `get_header_from_scope` raise a `TypeError` (iterating
Python `None`), not return an empty sequence. -/
theorem C3_header_accessor_counterexample :
    get_header_from_scope { headers := Option.none } "host"
      = Except.error PyErr.typeError := rfl

/-- C7 (corrected): `get_header_from_scope` does raise for malformed
byte sequences: when some header name in the collection is not
decodable, or some pair whose name decodes to the requested name has an
undecodable value, a `UnicodeDecodeError` propagates to the caller. -/
theorem C7_decode_error (scope : Scope) (name : String)
    (hs : List (List Nat × List Nat))
    (hh : scope.headers = Option.some hs)
    (hbad : (∃ p ∈ hs, decodeUtf8 p.1 = Option.none) ∨
      (∃ p ∈ hs, decodeUtf8 p.1 = Option.some name ∧
        decodeUtf8 p.2 = Option.none)) :
    get_header_from_scope scope name
      = Except.error PyErr.unicodeDecodeError := by
  simp [get_header_from_scope, hh, headerScan_bad name hs hbad]

/-- C7, witness for the corrected theorem: a pair whose name decodes to
the requested `host` but whose value is the undecodable byte `0xFF`
yields a `UnicodeDecodeError`. -/
theorem C7_decode_error_witness :
    get_header_from_scope
      { headers := Option.some [([104, 111, 115, 116], [255])] } "host"
      = Except.error PyErr.unicodeDecodeError :=
  C7_decode_error _ "host" [([104, 111, 115, 116], [255])] rfl
    (Or.inr ⟨([104, 111, 115, 116], [255]), by decide, by decide, by decide⟩)

/-- C7, counterexample to the claim as stated: on malformed header
bytes the function raises a `UnicodeDecodeError` rather than handling
the failure internally. -/
theorem C7_decode_error_counterexample :
    get_header_from_scope { headers := Option.some [([255], [97])] } "x"
      = Except.error PyErr.unicodeDecodeError := rfl

lemma collect_eq (scope : Scope) (server : String × Int)
    (hs : scope.server = Option.some server) :
    collect_request_attributes scope = Except.ok (collectAttrsNF scope server) := by
  simp only [collect_request_attributes, collectAttrsNF, hs]
  cases scope.path <;> cases scope.http_version <;> simp <;> split <;> simp

lemma collect_client_irrelevant (scope : Scope) :
    collect_request_attributes { scope with client := Option.none }
      = collect_request_attributes scope := rfl

/-- C8 (corrected): `collect_request_attributes` never includes peer
attributes — its result ignores the `client` field entirely (it is
unchanged when the client pair is removed from the scope), and every
key it produces is one of the eight fixed non-peer keys. -/
theorem C8_no_peer_attributes (scope : Scope) (attrs : List (String × AttrVal))
    (h : collect_request_attributes scope = Except.ok attrs) :
    collect_request_attributes { scope with client := Option.none }
      = Except.ok attrs ∧
    ∀ kv ∈ attrs, kv.1 ∈ (["component", "http.method", "http.server_name",
      "http.scheme", "http.host", "http.port", "http.target",
      "http.flavor"] : List String) := by
  refine ⟨by rw [collect_client_irrelevant, h], ?_⟩
  cases hs : scope.server with
  | none => rw [collect_request_attributes] at h; rw [hs] at h; cases h
  | some server =>
    rw [collect_eq scope server hs, Except.ok.injEq] at h
    subst h
    intro kv hkv
    simp only [collectAttrsNF, List.mem_append, List.mem_cons,
      List.not_mem_nil, or_false] at hkv
    rcases hkv with ((rfl | rfl | rfl | rfl | rfl | rfl) | h2) | h3
    · simp
    · simp
    · simp
    · simp
    · simp
    · simp
    · cases hp : scope.path with
      | none => rw [hp] at h2; simp at h2
      | some t => rw [hp] at h2; simp at h2; subst h2; simp
    · cases hv : scope.http_version with
      | none => rw [hv] at h3; simp at h3
      | some f =>
        rw [hv] at h3
        by_cases hf : f = ""
        · simp [hf] at h3
        · simp [hf] at h3; subst h3; simp

/-- C8, witness: a scope with both `server` and `client` present;
removing the client changes nothing and the keys are the fixed ones. -/
theorem C8_no_peer_attributes_witness :
    collect_request_attributes
      { server := Option.some ("example.com", 80),
        client := Option.none } = Except.ok
        [("component", AttrVal.none), ("http.method", AttrVal.none),
         ("http.server_name", AttrVal.str "example.com:80"),
         ("http.scheme", AttrVal.none),
         ("http.host", AttrVal.str "example.com"),
         ("http.port", AttrVal.int 80)] ∧
    ∀ kv ∈ ([("component", AttrVal.none), ("http.method", AttrVal.none),
         ("http.server_name", AttrVal.str "example.com:80"),
         ("http.scheme", AttrVal.none),
         ("http.host", AttrVal.str "example.com"),
         ("http.port", AttrVal.int 80)] : List (String × AttrVal)),
      kv.1 ∈ (["component", "http.method", "http.server_name",
        "http.scheme", "http.host", "http.port", "http.target",
        "http.flavor"] : List String) :=
  C8_no_peer_attributes
    { server := Option.some ("example.com", 80),
      client := Option.some ("10.0.0.1", 4242) } _ rfl

/-- C8, counterexample to the claim as stated: the scope's client
(peer) pair `("10.0.0.1", 4242)` is present, yet the returned mapping
is exactly the six server-side entries — no attribute carries the peer
address or port. -/
theorem C8_no_peer_attributes_counterexample :
    collect_request_attributes
      { server := Option.some ("example.com", 80),
        client := Option.some ("10.0.0.1", 4242) } = Except.ok
        [("component", AttrVal.none), ("http.method", AttrVal.none),
         ("http.server_name", AttrVal.str "example.com:80"),
         ("http.scheme", AttrVal.none),
         ("http.host", AttrVal.str "example.com"),
         ("http.port", AttrVal.int 80)] ∧
    ([("component", AttrVal.none), ("http.method", AttrVal.none),
      ("http.server_name", AttrVal.str "example.com:80"),
      ("http.scheme", AttrVal.none),
      ("http.host", AttrVal.str "example.com"),
      ("http.port", AttrVal.int 80)] : List (String × AttrVal)).all
      (fun kv => !(kv.2 == AttrVal.str "10.0.0.1"
                   || kv.2 == AttrVal.int 4242)) = true := by
  constructor
  · rfl
  · decide

/-- C9 (corrected): `http.flavor` is included exactly when the scope's
`http_version` is present and non-empty, but `http.target` is included
exactly when `path` is present — even when it is the empty string (the
code tests `target is not None`, not truthiness). -/
theorem C9_target_flavor (scope : Scope) (attrs : List (String × AttrVal))
    (h : collect_request_attributes scope = Except.ok attrs) :
    ((∃ v, ("http.target", v) ∈ attrs) ↔ scope.path ≠ Option.none) ∧
    ((∃ v, ("http.flavor", v) ∈ attrs) ↔
      ∃ f, scope.http_version = Option.some f ∧ f ≠ "") := by
  cases hs : scope.server with
  | none => rw [collect_request_attributes] at h; rw [hs] at h; cases h
  | some server =>
    rw [collect_eq scope server hs, Except.ok.injEq] at h
    subst h
    constructor
    · cases hp : scope.path with
      | none =>
        simp only [collectAttrsNF, hp]
        cases hv : scope.http_version with
        | none => simp
        | some f =>
          by_cases hf : f = "" <;> simp [hf]
      | some t =>
        simp only [collectAttrsNF, hp]
        constructor
        · intro _; simp
        · intro _; exact ⟨AttrVal.str t, by simp⟩
    · cases hv : scope.http_version with
      | none =>
        simp only [collectAttrsNF, hv]
        cases hp : scope.path with
        | none => simp
        | some t => simp
      | some f =>
        simp only [collectAttrsNF, hv]
        by_cases hf : f = ""
        · subst hf
          simp only [if_pos rfl]
          cases hp : scope.path with
          | none => simp
          | some t => simp
        · rw [if_neg hf]
          constructor
          · intro _; exact ⟨f, rfl, hf⟩
          · intro _; exact ⟨AttrVal.str f, by simp⟩

/-- C9, witness for the corrected theorem: a scope with a non-empty
path and a non-empty HTTP version carries both attributes. -/
theorem C9_target_flavor_witness :
    ((∃ v, ("http.target", v) ∈ collectAttrsNF scopeWithPathVersion ("h", 80)) ↔
      scopeWithPathVersion.path ≠ Option.none) ∧
    ((∃ v, ("http.flavor", v) ∈ collectAttrsNF scopeWithPathVersion ("h", 80)) ↔
      ∃ f, scopeWithPathVersion.http_version = Option.some f ∧ f ≠ "") :=
  C9_target_flavor scopeWithPathVersion _ rfl

/-- C9, counterexample to the claim as stated: an empty-string path
still yields an `http.target` attribute (with empty-string value). -/
theorem C9_target_flavor_counterexample :
    collect_request_attributes scopeEmptyPath
      = Except.ok
        [("component", AttrVal.none), ("http.method", AttrVal.none),
         ("http.server_name", AttrVal.str "h:80"),
         ("http.scheme", AttrVal.none), ("http.host", AttrVal.str "h"),
         ("http.port", AttrVal.int 80),
         ("http.target", AttrVal.str "")] ∧
    ([("component", AttrVal.none), ("http.method", AttrVal.none),
      ("http.server_name", AttrVal.str "h:80"),
      ("http.scheme", AttrVal.none), ("http.host", AttrVal.str "h"),
      ("http.port", AttrVal.int 80),
      ("http.target", AttrVal.str "")] : List (String × AttrVal)).any
      (fun kv => kv.1 == "http.target") = true := by
  constructor
  · rfl
  · decide

/-- C10 (confirmed): for a scope with a two-element `(host, port)`
server pair, the mapping contains `http.server_name` as the
colon-joined `"host:port"` string, and additionally `http.host` and
`http.port` as the separate elements. -/
theorem C10_server_name (scope : Scope) (host : String) (port : Int)
    (attrs : List (String × AttrVal))
    (hs : scope.server = Option.some (host, port))
    (h : collect_request_attributes scope = Except.ok attrs) :
    ("http.server_name", AttrVal.str (host ++ ":" ++ toString port)) ∈ attrs ∧
    ("http.host", AttrVal.str host) ∈ attrs ∧
    ("http.port", AttrVal.int port) ∈ attrs := by
  rw [collect_eq scope (host, port) hs, Except.ok.injEq] at h
  subst h
  refine ⟨?_, ?_, ?_⟩ <;> simp [collectAttrsNF, serverNameOf]

/-- C10, witness at a concrete scope. -/
theorem C10_server_name_witness :
    ("http.server_name",
      AttrVal.str ("example.com" ++ ":" ++ toString (80 : Int))) ∈
        collectAttrsNF scopeServerOnly ("example.com", 80) ∧
    ("http.host", AttrVal.str "example.com") ∈
        collectAttrsNF scopeServerOnly ("example.com", 80) ∧
    ("http.port", AttrVal.int 80) ∈
        collectAttrsNF scopeServerOnly ("example.com", 80) :=
  C10_server_name scopeServerOnly "example.com" 80 _ rfl rfl

/-- C5 (corrected): for raw status values that are integers or strings,
the Status Classifier handles coercion fully internally (string parse
failure raises `ValueError`, which is caught); but for a value whose
coercion raises `TypeError` — such as Python `None` — the exception is
not caught by `except ValueError` and propagates. -/
theorem C5_no_escape (raw : PyVal) (h : raw ≠ PyVal.none) :
    ∃ out, recordStatus raw = Except.ok out := by
  cases raw with
  | int n => exact ⟨_, rfl⟩
  | str s =>
    simp only [recordStatus, pyInt]
    cases hp : pyStrToInt s with
    | none => exact ⟨_, rfl⟩
    | some n => exact ⟨_, rfl⟩
  | none => exact absurd rfl h

/-- C5, witness: the non-integer string `"abc"` is handled internally
(no exception escapes). -/
theorem C5_no_escape_witness :
    ∃ out, recordStatus (PyVal.str "abc") = Except.ok out :=
  C5_no_escape (PyVal.str "abc") (by decide)

/-- C5, counterexample to the claim as stated: for the possible raw
status value `None`, `int(None)` raises `TypeError`, which the
`except ValueError` does not catch — the exception propagates out of
`wrapped_send` (and the send span is also left unterminated). -/
theorem C5_no_escape_counterexample :
    recordStatus PyVal.none = Except.error PyErr.typeError ∧
    wrapped_send "/" 0
      { type := Option.some "http.response.start",
        status := Option.some PyVal.none } (Except.ok ())
      { nextId := 1, events := [] }
      = (Except.error PyErr.typeError,
         { nextId := 2,
           events := [Ev.start 1 "/ (unknown-send)" (Option.some 0) []] }) :=
  ⟨rfl, rfl⟩

/-- C6 (confirmed): whenever the raw status value coerces to an integer
`n`, the Status Classifier sets the numeric `http.status_code`
attribute to `n` and the span status to the HTTP-range classification
of `n` (200, 201, 301 → ok; 404 → client error; 500 → server error,
per the spec-modelled `http_status_to_canonical_code`); for the string
`"abc"` it sets an unknown-outcome status whose message contains
`"abc"` and sets no numeric attribute. -/
theorem C6_status_outcomes :
    (∀ (raw : PyVal) (n : Int), pyInt raw = Except.ok n →
      recordStatus raw = Except.ok
        ([("http.status_code", AttrVal.int n)],
         { canonical := http_status_to_canonical_code n,
           description := Option.none })) ∧
    recordStatus (PyVal.str "abc") = Except.ok
      ([], { canonical := Outcome.unknown,
             description := Option.some "Non-integer HTTP status: 'abc'" }) ∧
    (∃ pre post, ("Non-integer HTTP status: 'abc'").data
        = pre ++ "abc".data ++ post) ∧
    http_status_to_canonical_code 200 = Outcome.ok ∧
    http_status_to_canonical_code 201 = Outcome.ok ∧
    http_status_to_canonical_code 301 = Outcome.ok ∧
    http_status_to_canonical_code 404 = Outcome.clientError ∧
    http_status_to_canonical_code 500 = Outcome.serverError ∧
    pyInt (PyVal.int 200) = Except.ok 200 ∧
    pyInt (PyVal.int 201) = Except.ok 201 ∧
    pyInt (PyVal.int 301) = Except.ok 301 ∧
    pyInt (PyVal.int 404) = Except.ok 404 ∧
    pyInt (PyVal.int 500) = Except.ok 500 := by
  refine ⟨?_, rfl, ⟨("Non-integer HTTP status: '").data, ("'").data, by decide⟩,
    by decide, by decide, by decide, by decide, by decide,
    rfl, rfl, rfl, rfl, rfl⟩
  intro raw n h
  simp only [recordStatus, h]

/-- C6, witness: the general clause applied at raw status 404. -/
theorem C6_status_outcomes_witness :
    recordStatus (PyVal.int 404) = Except.ok
      ([("http.status_code", AttrVal.int 404)],
       { canonical := http_status_to_canonical_code 404,
         description := Option.none }) :=
  C6_status_outcomes.1 (PyVal.int 404) 404 rfl

/-- C4 (corrected): line 142 supports only the double-call shape — the
application is called with the scope alone, and the returned callable
is then called with the wrapped primitives; a single-call application
(expecting `app(scope, receive, send)`) raises `TypeError` when invoked
this way, so the middleware fails for that shape instead of
accommodating it. -/
theorem C4_call_shape :
    (∀ (run : AppRun) (scope : Scope),
      invoke_asgi (Application.double run) scope = Except.ok run) ∧
    (∀ (run : AppRun) (scope : Scope),
      invoke_asgi (Application.single run) scope
        = Except.error PyErr.typeError) ∧
    (∀ (run : AppRun) (scope : Scope) (st : TraceState),
      (middleware_call (Application.single run) scope st).1
        = Except.error PyErr.typeError) := by
  refine ⟨fun run scope => rfl, fun run scope => rfl, fun run scope st => ?_⟩
  cases hs : scope.server with
  | none => simp [middleware_call, collect_request_attributes, hs]
  | some server =>
    simp [middleware_call, collect_eq scope server hs, app_body, invoke_asgi]

/-- C4, counterexample to the claim as stated: a single-shape
application that would simply return normally instead makes the whole
request fail with `TypeError` — the middleware does not accommodate the
single-call shape. -/
theorem C4_call_shape_counterexample :
    middleware_call (Application.single { }) scopeServerOnly
      { nextId := 0, events := [] }
      = (Except.error PyErr.typeError,
         { nextId := 1,
           events :=
             [Ev.start 0 "/" Option.none
               [("component", AttrVal.none), ("http.method", AttrVal.none),
                ("http.server_name", AttrVal.str "example.com:80"),
                ("http.scheme", AttrVal.none),
                ("http.host", AttrVal.str "example.com"),
                ("http.port", AttrVal.int 80)],
              Ev.stop 0] }) := rfl

/-- C2 (code bug): when the underlying primitive fails (exception or
cancellation while suspended), the child span the wrapper started is
NOT ended before the failure propagates — there is no `try/finally`
around the awaits, so the start event has no matching end event.  The
receive wrapper leaks its span when the awaited receive raises, and the
send wrapper leaks its span when the awaited send raises (after having
renamed and tagged it). -/
theorem C2_child_span_leak :
    (wrapped_receive "/" 0 (Except.error (PyErr.other "cancelled"))
        { nextId := 1, events := [] }
      = (Except.error (PyErr.other "cancelled"),
         { nextId := 2,
           events := [Ev.start 1 "/ (unknown-receive)" (Option.some 0) []] })) ∧
    startCount 1 [Ev.start 1 "/ (unknown-receive)" (Option.some 0) []] = 1 ∧
    stopCount 1 [Ev.start 1 "/ (unknown-receive)" (Option.some 0) []] = 0 ∧
    (wrapped_send "/" 0 { type := Option.some "http.response.body" }
        (Except.error (PyErr.other "cancelled")) { nextId := 1, events := [] }
      = (Except.error (PyErr.other "cancelled"),
         { nextId := 2,
           events :=
             [Ev.start 1 "/ (unknown-send)" (Option.some 0) [],
              Ev.updateName 1 "/ (http.response.body)",
              Ev.setAttr 1 "type" (AttrVal.str "http.response.body")] })) ∧
    stopCount 1
      [Ev.start 1 "/ (unknown-send)" (Option.some 0) [],
       Ev.updateName 1 "/ (http.response.body)",
       Ev.setAttr 1 "type" (AttrVal.str "http.response.body")] = 0 := by
  refine ⟨rfl, by decide, by decide, rfl, by decide⟩

lemma freshTail (n : Nat) (tail : List Ev)
    (h : tail.all (fun e => (Ev.spanId e == n) && !Ev.isRootStart e) = true) :
    ∀ e ∈ tail, Ev.spanId e = n ∧ Ev.isRootStart e = false := by
  intro e he
  have hx := List.all_eq_true.mp h e he
  simp only [Bool.and_eq_true, beq_iff_eq, Bool.not_eq_true'] at hx
  exact hx

lemma isStartOf_false_of_lt {n : Nat} {e : Ev} (h : n < Ev.spanId e) :
    Ev.isStartOf n e = false := by
  cases e with
  | start i nm pr at' =>
    simp only [Ev.spanId] at h
    simp only [Ev.isStartOf, decide_eq_false_iff_not]
    omega
  | stop i => rfl
  | setAttr i k v => rfl
  | setStatus i s => rfl
  | updateName i nm => rfl

lemma isStopOf_false_of_lt {n : Nat} {e : Ev} (h : n < Ev.spanId e) :
    Ev.isStopOf n e = false := by
  cases e with
  | stop i =>
    simp only [Ev.spanId] at h
    simp only [Ev.isStopOf, decide_eq_false_iff_not]
    omega
  | start i nm pr at' => rfl
  | setAttr i k v => rfl
  | setStatus i s => rfl
  | updateName i nm => rfl

lemma countP_zero_of_false {p : Ev → Bool} {tail : List Ev}
    (h : ∀ e ∈ tail, p e = false) : tail.countP p = 0 :=
  List.countP_eq_zero.mpr (by intro a ha; simp [h a ha])

lemma wrapped_receive_state (sn : String) (root : Nat)
    (res : Except PyErr Payload) (st : TraceState) :
    (wrapped_receive sn root res st).2.nextId = st.nextId + 1 ∧
    ∃ tail, (wrapped_receive sn root res st).2.events = st.events ++ tail ∧
      ∀ e ∈ tail, Ev.spanId e = st.nextId ∧ Ev.isRootStart e = false := by
  cases res with
  | error e =>
    exact ⟨rfl,
      [Ev.start st.nextId (sn ++ " (unknown-receive)") (Option.some root) []],
      rfl, freshTail _ _ (by simp [Ev.spanId, Ev.isRootStart])⟩
  | ok payload =>
    cases hty : payload.type with
    | none =>
      refine ⟨?_, [Ev.start st.nextId (sn ++ " (unknown-receive)") (Option.some root) []],
        ?_, freshTail _ _ (by simp [Ev.spanId, Ev.isRootStart])⟩ <;>
        simp [wrapped_receive, TraceState.startSpan, hty]
    | some ty =>
      by_cases hws : ty = "websocket.receive"
      · subst hws
        cases htx : payload.text with
        | none =>
          refine ⟨?_,
            [Ev.start st.nextId (sn ++ " (unknown-receive)") (Option.some root) [],
             Ev.setAttr st.nextId "http.status_code" (AttrVal.int 200),
             Ev.setStatus st.nextId { canonical := http_status_to_canonical_code 200 }],
            ?_, freshTail _ _ (by simp [Ev.spanId, Ev.isRootStart])⟩ <;>
            simp [wrapped_receive, TraceState.startSpan, TraceState.push, hty, htx]
        | some text =>
          refine ⟨?_,
            [Ev.start st.nextId (sn ++ " (unknown-receive)") (Option.some root) [],
             Ev.setAttr st.nextId "http.status_code" (AttrVal.int 200),
             Ev.setStatus st.nextId { canonical := http_status_to_canonical_code 200 },
             Ev.setAttr st.nextId "http.status_text" (AttrVal.str text),
             Ev.updateName st.nextId (sn ++ " (" ++ "websocket.receive" ++ ")"),
             Ev.setAttr st.nextId "type" (AttrVal.str "websocket.receive"),
             Ev.stop st.nextId],
            ?_, freshTail _ _ (by simp [Ev.spanId, Ev.isRootStart])⟩ <;>
            simp [wrapped_receive, TraceState.startSpan, TraceState.push, hty, htx]
      · refine ⟨?_,
          [Ev.start st.nextId (sn ++ " (unknown-receive)") (Option.some root) [],
           Ev.updateName st.nextId (sn ++ " (" ++ ty ++ ")"),
           Ev.setAttr st.nextId "type" (AttrVal.str ty),
           Ev.stop st.nextId],
          ?_, freshTail _ _ (by simp [Ev.spanId, Ev.isRootStart])⟩ <;>
          simp [wrapped_receive, TraceState.startSpan, TraceState.push, hty, hws]

lemma wrapped_send_state (sn : String) (root : Nat) (payload : Payload)
    (sendRes : Except PyErr Unit) (st : TraceState) :
    (wrapped_send sn root payload sendRes st).2.nextId = st.nextId + 1 ∧
    ∃ tail, (wrapped_send sn root payload sendRes st).2.events = st.events ++ tail ∧
      ∀ e ∈ tail, Ev.spanId e = st.nextId ∧ Ev.isRootStart e = false := by
  cases hty : payload.type with
  | none =>
    refine ⟨?_, [Ev.start st.nextId (sn ++ " (unknown-send)") (Option.some root) []],
      ?_, freshTail _ _ (by simp [Ev.spanId, Ev.isRootStart])⟩ <;>
      simp [wrapped_send, TraceState.startSpan, hty]
  | some ty =>
    by_cases hrs : ty = "http.response.start"
    · subst hrs
      cases hstat : payload.status with
      | none =>
        refine ⟨?_, [Ev.start st.nextId (sn ++ " (unknown-send)") (Option.some root) []],
          ?_, freshTail _ _ (by simp [Ev.spanId, Ev.isRootStart])⟩ <;>
          simp [wrapped_send, TraceState.startSpan, hty, hstat]
      | some raw =>
        rcases hrec : recordStatus raw with e | out
        · refine ⟨?_, [Ev.start st.nextId (sn ++ " (unknown-send)") (Option.some root) []],
            ?_, freshTail _ _ (by simp [Ev.spanId, Ev.isRootStart])⟩ <;>
            simp [wrapped_send, TraceState.startSpan, hty, hstat, hrec]
        · rcases out with ⟨attrs, status⟩
          cases sendRes with
          | error e2 =>
            refine ⟨?_,
              [Ev.start st.nextId (sn ++ " (unknown-send)") (Option.some root) []]
                ++ (attrs.map (fun kv => Ev.setAttr st.nextId kv.1 kv.2)
                    ++ [Ev.setStatus st.nextId status])
                ++ [Ev.updateName st.nextId (sn ++ " (" ++ "http.response.start" ++ ")"),
                    Ev.setAttr st.nextId "type" (AttrVal.str "http.response.start")],
              ?_, ?_⟩
            · simp [wrapped_send, TraceState.startSpan, TraceState.push, hty, hstat, hrec]
            · simp [wrapped_send, TraceState.startSpan, TraceState.push, hty, hstat, hrec]
            · intro e' he
              simp only [List.mem_append, List.mem_cons, List.mem_singleton,
                List.mem_map, List.not_mem_nil, or_false] at he
              rcases he with (rfl | ⟨kv, hkv, rfl⟩ | rfl) | (rfl | rfl) <;>
                exact ⟨rfl, rfl⟩
          | ok u =>
            refine ⟨?_,
              [Ev.start st.nextId (sn ++ " (unknown-send)") (Option.some root) []]
                ++ (attrs.map (fun kv => Ev.setAttr st.nextId kv.1 kv.2)
                    ++ [Ev.setStatus st.nextId status])
                ++ [Ev.updateName st.nextId (sn ++ " (" ++ "http.response.start" ++ ")"),
                    Ev.setAttr st.nextId "type" (AttrVal.str "http.response.start")]
                ++ [Ev.stop st.nextId],
              ?_, ?_⟩
            · simp [wrapped_send, TraceState.startSpan, TraceState.push, hty, hstat, hrec]
            · simp [wrapped_send, TraceState.startSpan, TraceState.push, hty, hstat, hrec]
            · intro e' he
              simp only [List.mem_append, List.mem_cons, List.mem_singleton,
                List.mem_map, List.not_mem_nil, or_false] at he
              rcases he with ((rfl | ⟨kv, hkv, rfl⟩ | rfl) | (rfl | rfl)) | rfl <;>
                exact ⟨rfl, rfl⟩
    · by_cases hwss : ty = "websocket.send"
      · subst hwss
        cases htx : payload.text with
        | none =>
          refine ⟨?_,
            [Ev.start st.nextId (sn ++ " (unknown-send)") (Option.some root) [],
             Ev.setAttr st.nextId "http.status_code" (AttrVal.int 200),
             Ev.setStatus st.nextId { canonical := http_status_to_canonical_code 200 }],
            ?_, freshTail _ _ (by simp [Ev.spanId, Ev.isRootStart])⟩ <;>
            simp [wrapped_send, TraceState.startSpan, TraceState.push, hty, htx]
        | some text =>
          cases sendRes with
          | error e2 =>
            refine ⟨?_,
              [Ev.start st.nextId (sn ++ " (unknown-send)") (Option.some root) [],
               Ev.setAttr st.nextId "http.status_code" (AttrVal.int 200),
               Ev.setStatus st.nextId { canonical := http_status_to_canonical_code 200 },
               Ev.setAttr st.nextId "http.status_text" (AttrVal.str text),
               Ev.updateName st.nextId (sn ++ " (" ++ "websocket.send" ++ ")"),
               Ev.setAttr st.nextId "type" (AttrVal.str "websocket.send")],
              ?_, freshTail _ _ (by simp [Ev.spanId, Ev.isRootStart])⟩ <;>
              simp [wrapped_send, TraceState.startSpan, TraceState.push, hty, htx]
          | ok u =>
            refine ⟨?_,
              [Ev.start st.nextId (sn ++ " (unknown-send)") (Option.some root) [],
               Ev.setAttr st.nextId "http.status_code" (AttrVal.int 200),
               Ev.setStatus st.nextId { canonical := http_status_to_canonical_code 200 },
               Ev.setAttr st.nextId "http.status_text" (AttrVal.str text),
               Ev.updateName st.nextId (sn ++ " (" ++ "websocket.send" ++ ")"),
               Ev.setAttr st.nextId "type" (AttrVal.str "websocket.send"),
               Ev.stop st.nextId],
              ?_, freshTail _ _ (by simp [Ev.spanId, Ev.isRootStart])⟩ <;>
              simp [wrapped_send, TraceState.startSpan, TraceState.push, hty, htx]
      · cases sendRes with
        | error e2 =>
          refine ⟨?_,
            [Ev.start st.nextId (sn ++ " (unknown-send)") (Option.some root) [],
             Ev.updateName st.nextId (sn ++ " (" ++ ty ++ ")"),
             Ev.setAttr st.nextId "type" (AttrVal.str ty)],
            ?_, freshTail _ _ (by simp [Ev.spanId, Ev.isRootStart])⟩ <;>
            simp [wrapped_send, TraceState.startSpan, TraceState.push, hty, hrs, hwss]
        | ok u =>
          refine ⟨?_,
            [Ev.start st.nextId (sn ++ " (unknown-send)") (Option.some root) [],
             Ev.updateName st.nextId (sn ++ " (" ++ ty ++ ")"),
             Ev.setAttr st.nextId "type" (AttrVal.str ty),
             Ev.stop st.nextId],
            ?_, freshTail _ _ (by simp [Ev.spanId, Ev.isRootStart])⟩ <;>
            simp [wrapped_send, TraceState.startSpan, TraceState.push, hty, hrs, hwss]

lemma runSteps_state (sn : String) (root : Nat) (steps : List AppStep) :
    ∀ st : TraceState,
      st.nextId ≤ (runSteps sn root steps st).2.nextId ∧
      ∃ tail, (runSteps sn root steps st).2.events = st.events ++ tail ∧
        ∀ e ∈ tail, st.nextId ≤ Ev.spanId e ∧ Ev.isRootStart e = false := by
  induction steps with
  | nil =>
    intro st
    exact ⟨Nat.le_refl _, [], by simp [runSteps], by simp⟩
  | cons step rest ih =>
    intro st
    cases step with
    | recv res =>
      obtain ⟨hn, tail, hev, hfresh⟩ := wrapped_receive_state sn root res st
      rcases hw : wrapped_receive sn root res st with ⟨r, st1⟩
      rw [hw] at hn hev
      dsimp only at hn hev
      cases r with
      | error e =>
        simp only [runSteps, hw]
        exact ⟨by omega, tail, hev,
          fun e' he => ⟨Nat.le_of_eq (hfresh e' he).1.symm, (hfresh e' he).2⟩⟩
      | ok p =>
        simp only [runSteps, hw]
        obtain ⟨hn2, tail2, hev2, hfresh2⟩ := ih st1
        refine ⟨by omega, tail ++ tail2, ?_, ?_⟩
        · rw [hev2, hev, List.append_assoc]
        · intro e' he
          rcases List.mem_append.mp he with h1 | h2
          · exact ⟨Nat.le_of_eq (hfresh e' h1).1.symm, (hfresh e' h1).2⟩
          · obtain ⟨ha, hb⟩ := hfresh2 e' h2
            exact ⟨by omega, hb⟩
    | send payload res =>
      obtain ⟨hn, tail, hev, hfresh⟩ := wrapped_send_state sn root payload res st
      rcases hw : wrapped_send sn root payload res st with ⟨r, st1⟩
      rw [hw] at hn hev
      dsimp only at hn hev
      cases r with
      | error e =>
        simp only [runSteps, hw]
        exact ⟨by omega, tail, hev,
          fun e' he => ⟨Nat.le_of_eq (hfresh e' he).1.symm, (hfresh e' he).2⟩⟩
      | ok p =>
        simp only [runSteps, hw]
        obtain ⟨hn2, tail2, hev2, hfresh2⟩ := ih st1
        refine ⟨by omega, tail ++ tail2, ?_, ?_⟩
        · rw [hev2, hev, List.append_assoc]
        · intro e' he
          rcases List.mem_append.mp he with h1 | h2
          · exact ⟨Nat.le_of_eq (hfresh e' h1).1.symm, (hfresh e' h1).2⟩
          · obtain ⟨ha, hb⟩ := hfresh2 e' h2
            exact ⟨by omega, hb⟩

lemma app_body_state (app : Application) (scope : Scope) (sn : String)
    (root : Nat) (st : TraceState) :
    st.nextId ≤ (app_body app scope sn root st).2.nextId ∧
    ∃ tail, (app_body app scope sn root st).2.events = st.events ++ tail ∧
      ∀ e ∈ tail, st.nextId ≤ Ev.spanId e ∧ Ev.isRootStart e = false := by
  cases app with
  | single run =>
    exact ⟨Nat.le_refl _, [], by simp [app_body, invoke_asgi], by simp⟩
  | double run =>
    obtain ⟨hn, tail, hev, hfresh⟩ := runSteps_state sn root run.steps st
    rcases hrs : runSteps sn root run.steps st with ⟨r, st1⟩
    rw [hrs] at hn hev
    dsimp only at hn hev
    cases r with
    | error e =>
      exact ⟨by simpa [app_body, invoke_asgi, hrs] using hn, tail,
        by simpa [app_body, invoke_asgi, hrs] using hev, hfresh⟩
    | ok u =>
      exact ⟨by simpa [app_body, invoke_asgi, hrs] using hn, tail,
        by simpa [app_body, invoke_asgi, hrs] using hev, hfresh⟩

/-- C1 (confirmed): starting a request with a fresh tracer state, the
middleware logs exactly one root-span start, starts span 0 exactly
once and ends it exactly once — the only `Ev.stop 0` is appended after
the try-body finishes, on the normal path and on the exception path
alike — and the middleware's outcome (normal return or exception) is
exactly the try-body's outcome: an exception from the application or
the wrapped primitives is re-raised unchanged after the root span is
ended. -/
theorem C1_root_span_lifecycle (app : Application) (scope : Scope)
    (attrs : List (String × AttrVal))
    (h : collect_request_attributes scope = Except.ok attrs) :
    rootStartCount
      (middleware_call app scope { nextId := 0, events := [] }).2.events = 1 ∧
    startCount 0
      (middleware_call app scope { nextId := 0, events := [] }).2.events = 1 ∧
    stopCount 0
      (middleware_call app scope { nextId := 0, events := [] }).2.events = 1 ∧
    (middleware_call app scope { nextId := 0, events := [] }).1
      = (app_body app scope (get_default_span_name scope) 0
          { nextId := 1,
            events := [Ev.start 0 (get_default_span_name scope)
              Option.none attrs] }).1 ∧
    (middleware_call app scope { nextId := 0, events := [] }).2.events
      = (app_body app scope (get_default_span_name scope) 0
          { nextId := 1,
            events := [Ev.start 0 (get_default_span_name scope)
              Option.none attrs] }).2.events ++ [Ev.stop 0] := by
  obtain ⟨hn, tail, hev, hfresh⟩ :=
    app_body_state app scope (get_default_span_name scope) 0
      { nextId := 1,
        events := [Ev.start 0 (get_default_span_name scope) Option.none attrs] }
  rcases hb : app_body app scope (get_default_span_name scope) 0
      { nextId := 1,
        events := [Ev.start 0 (get_default_span_name scope) Option.none attrs] }
    with ⟨r, st2⟩
  rw [hb] at hn hev
  dsimp only at hn hev
  have hmw : middleware_call app scope { nextId := 0, events := [] }
      = (r, st2.push [Ev.stop 0]) := by
    cases r with
    | error e => simp [middleware_call, h, TraceState.startSpan, hb]
    | ok u => cases u; simp [middleware_call, h, TraceState.startSpan, hb]
  have h1 : ∀ e ∈ tail, Ev.isRootStart e = false := fun e he => (hfresh e he).2
  have h2 : ∀ e ∈ tail, Ev.isStartOf 0 e = false := fun e he =>
    isStartOf_false_of_lt (Nat.lt_of_lt_of_le Nat.zero_lt_one (hfresh e he).1)
  have h3 : ∀ e ∈ tail, Ev.isStopOf 0 e = false := fun e he =>
    isStopOf_false_of_lt (Nat.lt_of_lt_of_le Nat.zero_lt_one (hfresh e he).1)
  rw [hmw]
  dsimp only [TraceState.push]
  rw [hev]
  refine ⟨?_, ?_, ?_, rfl, rfl⟩
  · simp [rootStartCount, List.countP_append, List.countP_cons,
      countP_zero_of_false h1, Ev.isRootStart]
  · simp [startCount, List.countP_append, List.countP_cons,
      countP_zero_of_false h2, Ev.isStartOf]
  · simp [stopCount, List.countP_append, List.countP_cons,
      countP_zero_of_false h3, Ev.isStopOf]

/-- C1, witness for the theorem at a concrete request: a double-shape
application performing one receive and one send against a scope whose
`server` pair is present. -/
theorem C1_root_span_lifecycle_witness :
    rootStartCount
      (middleware_call (Application.double exampleRun) scopeServerOnly
        { nextId := 0, events := [] }).2.events = 1 ∧
    startCount 0
      (middleware_call (Application.double exampleRun) scopeServerOnly
        { nextId := 0, events := [] }).2.events = 1 ∧
    stopCount 0
      (middleware_call (Application.double exampleRun) scopeServerOnly
        { nextId := 0, events := [] }).2.events = 1 ∧
    (middleware_call (Application.double exampleRun) scopeServerOnly
        { nextId := 0, events := [] }).1
      = (app_body (Application.double exampleRun) scopeServerOnly
          (get_default_span_name scopeServerOnly) 0
          { nextId := 1,
            events := [Ev.start 0 (get_default_span_name scopeServerOnly)
              Option.none attrsServerOnly] }).1 ∧
    (middleware_call (Application.double exampleRun) scopeServerOnly
        { nextId := 0, events := [] }).2.events
      = (app_body (Application.double exampleRun) scopeServerOnly
          (get_default_span_name scopeServerOnly) 0
          { nextId := 1,
            events := [Ev.start 0 (get_default_span_name scopeServerOnly)
              Option.none attrsServerOnly] }).2.events ++ [Ev.stop 0] :=
  C1_root_span_lifecycle (Application.double exampleRun) scopeServerOnly
    attrsServerOnly rfl
